import Mathlib

/-!
# Verification of the haka-mqtt reactor (haka_mqtt/reactor.py)

A shallow embedding of the MQTT 3.1.1 client reactor state machine.
The Python `Reactor` class mutates a single aggregate object; here the
aggregate is a `Reactor` structure and every handler is a pure function
`Reactor → ... → Reactor`.  External collaborators are abstracted:

* the MQTT wire codec (the external `mqtt_codec` package) is abstracted
  to per-record encoded sizes (`encodedSize`); packet-id-only packets
  use their real MQTT 3.1.1 sizes (4 bytes), PINGREQ / PINGRESP /
  DISCONNECT use 2 bytes, and CONNECT / PUBLISH / SUBSCRIBE /
  UNSUBSCRIBE carry an abstract size chosen at creation;
* the non-blocking socket is an input at each step: a send call returns
  a `SendResult` (bytes accepted, would-block, or an errno), a recv call
  returns a `RecvResult`;
* the scheduler (`haka_mqtt/scheduler.py`, not under src/) is modelled
  from the spec: deadlines are one-shot, cancellable, and fire at most
  once; a deadline is represented by the duration it was scheduled with.
  Durations are stored in half-second units so that the Python float
  expression `1.5*keepalive_period` is the exact natural number
  `3 * keepalive_period` (exact in binary floating point for
  `keepalive_period ≤ 2^16-1`);
* host callbacks are recorded in an append-only `emits` log; ticket
  status mutations (`_set_status` calls on host-held ticket objects) are
  recorded in the same log;
* topics and payloads are opaque tokens (`Nat`); the reactor never
  inspects them.
-/

namespace HakaMqtt

/-- MqttState from reactor.py.  `mute` is declared in the source but
never assigned. -/
inductive MqttState
  | connack
  | connected
  | mute
  | stopped
deriving DecidableEq, Repr

/-- SocketState from reactor.py. -/
inductive SocketState
  | name_resolution
  | connecting
  | handshake
  | connected
  | deaf
  | mute
  | stopped
deriving DecidableEq, Repr

/-- ReactorState from reactor.py. -/
inductive ReactorState
  | init
  | starting
  | started
  | stopping
  | stopped
  | error
deriving DecidableEq, Repr

/-- INACTIVE_STATES from reactor.py. -/
def INACTIVE_STATES : List ReactorState := [.init, .stopped, .error]

/-- ACTIVE_STATES from reactor.py. -/
def ACTIVE_STATES : List ReactorState := [.starting, .started, .stopping]

/-- INACTIVE_MQTT_STATES from reactor.py. -/
def INACTIVE_MQTT_STATES : List MqttState := [.stopped]

/-- INACTIVE_SOCK_STATES from reactor.py. -/
def INACTIVE_SOCK_STATES : List SocketState := [.stopped]

/-- ConnackResult return codes (from the external codec; only the
distinction accepted / not-accepted matters to the reactor). -/
inductive ConnackResult
  | accepted
  | fail_bad_protocol_version
  | fail_bad_client_id
  | fail_server_unavailable
  | fail_bad_username_or_password
  | fail_not_authorized
deriving DecidableEq, Repr

/-- The ReactorError taxonomy of reactor.py (class names
MutePeerReactorError, ConnectReactorError, KeepaliveTimeoutReactorError,
SocketReactorError, AddressReactorError, DecodeReactorError,
ProtocolReactorError).  Human-readable messages are dropped. -/
inductive ReactorError
  | mutePeer
  | connect (result : ConnackResult)
  | keepaliveTimeout
  | socketError (errno : Nat)
  | address
  | decode
  | protocol
deriving DecidableEq, Repr

/-- MqttControlPacketType (external codec enum). -/
inductive MqttControlPacketType
  | connect
  | connack
  | publish
  | puback
  | pubrec
  | pubrel
  | pubcomp
  | subscribe
  | suback
  | unsubscribe
  | unsuback
  | pingreq
  | pingresp
  | disconnect
deriving DecidableEq, Repr

/-- Modelled from the spec: MqttPublishStatus of
haka_mqtt/mqtt_request.py, which is not under src/ (the spec gives
status ∈ preflight, puback, pubrec, done, and the repository tests in
src/tests/test_reactor.py pin the initial status as preflight). -/
inductive MqttPublishStatus
  | preflight
  | puback
  | pubrec
  | done
deriving DecidableEq, Repr

/-- Modelled from the spec: MqttSubscribeStatus of
haka_mqtt/mqtt_request.py (not under src/): status ∈ preflight, ack,
done, initial status preflight. -/
inductive MqttSubscribeStatus
  | preflight
  | ack
  | done
deriving DecidableEq, Repr

/-- Modelled from the spec: MqttPublishTicket of
haka_mqtt/mqtt_request.py (not under src/).  A publish ticket created at
submission with dupe = false and status = preflight.  `topic` and
`payload` are opaque tokens; `size` is the encoded size of the
corresponding MqttPublish packet (abstracting the external codec). -/
structure MqttPublishTicket where
  packet_id : Nat
  topic : Nat
  payload : Nat
  qos : Nat
  retain : Bool
  dupe : Bool
  status : MqttPublishStatus
  size : Nat
deriving DecidableEq, Repr

/-- The `_set_status` mutation of a publish ticket. -/
def MqttPublishTicket.set_status (t : MqttPublishTicket) (st : MqttPublishStatus) :
    MqttPublishTicket :=
  { t with status := st }

/-- The `_set_dupe` mutation of a publish ticket. -/
def MqttPublishTicket.set_dupe (t : MqttPublishTicket) : MqttPublishTicket :=
  { t with dupe := true }

/-- Modelled from the spec: MqttSubscribeTicket of
haka_mqtt/mqtt_request.py (not under src/). -/
structure MqttSubscribeTicket where
  packet_id : Nat
  topics : List Nat
  status : MqttSubscribeStatus
  size : Nat
deriving DecidableEq, Repr

def MqttSubscribeTicket.set_status (t : MqttSubscribeTicket) (st : MqttSubscribeStatus) :
    MqttSubscribeTicket :=
  { t with status := st }

/-- Modelled from the spec: MqttUnsubscribeTicket of
haka_mqtt/mqtt_request.py (not under src/). -/
structure MqttUnsubscribeTicket where
  packet_id : Nat
  topics : List Nat
  status : MqttSubscribeStatus
  size : Nat
deriving DecidableEq, Repr

def MqttUnsubscribeTicket.set_status (t : MqttUnsubscribeTicket) (st : MqttSubscribeStatus) :
    MqttUnsubscribeTicket :=
  { t with status := st }

/-- An entry of the reactor's preflight / in-flight queues.  The Python
queues mix ticket objects (publish, subscribe, unsubscribe) and raw
codec packets (connect, puback, pubrec, pubrel, pubcomp, pingreq,
pingresp, disconnect). -/
inductive PacketRecord
  | connect (size : Nat)
  | publish (t : MqttPublishTicket)
  | subscribe (t : MqttSubscribeTicket)
  | unsubscribe (t : MqttUnsubscribeTicket)
  | puback (packet_id : Nat)
  | pubrec (packet_id : Nat)
  | pubrel (packet_id : Nat)
  | pubcomp (packet_id : Nat)
  | pingreq
  | pingresp
  | disconnect
deriving DecidableEq, Repr

/-- The `packet_type` attribute of a queue record. -/
def PacketRecord.packet_type : PacketRecord → MqttControlPacketType
  | .connect _ => .connect
  | .publish _ => .publish
  | .subscribe _ => .subscribe
  | .unsubscribe _ => .unsubscribe
  | .puback _ => .puback
  | .pubrec _ => .pubrec
  | .pubrel _ => .pubrel
  | .pubcomp _ => .pubcomp
  | .pingreq => .pingreq
  | .pingresp => .pingresp
  | .disconnect => .disconnect

/-- The `packet_id` attribute of a queue record, where present. -/
def PacketRecord.recPacketId : PacketRecord → Option Nat
  | .connect _ => none
  | .publish t => some t.packet_id
  | .subscribe t => some t.packet_id
  | .unsubscribe t => some t.packet_id
  | .puback pid => some pid
  | .pubrec pid => some pid
  | .pubrel pid => some pid
  | .pubcomp pid => some pid
  | .pingreq => none
  | .pingresp => none
  | .disconnect => none

/-- Encoded size of a record in bytes.  Packet-id-only packets are 4
bytes and PINGREQ / PINGRESP / DISCONNECT are 2 bytes in MQTT 3.1.1;
the remaining sizes abstract the external codec. -/
def PacketRecord.encodedSize : PacketRecord → Nat
  | .connect sz => sz
  | .publish t => t.size
  | .subscribe t => t.size
  | .unsubscribe t => t.size
  | .puback _ => 4
  | .pubrec _ => 4
  | .pubrel _ => 4
  | .pubcomp _ => 4
  | .pingreq => 2
  | .pingresp => 2
  | .disconnect => 2

/-- OrderedDict key lookup: first record whose packet_id is `pid`
(packet ids of queued records are unique in reachable states). -/
def dictGet (q : List PacketRecord) (pid : Nat) : Option PacketRecord :=
  q.find? (fun p => p.recPacketId == some pid)

/-- OrderedDict key deletion by packet id, preserving order. -/
def dictDel (q : List PacketRecord) (pid : Nat) : List PacketRecord :=
  q.filter (fun p => p.recPacketId != some pid)

/-- get_packet_type from reactor.py: look up `pid` and keep the result
only when its packet type is `ty`. -/
def get_packet_type (q : List PacketRecord) (pid : Nat) (ty : MqttControlPacketType) :
    Option PacketRecord :=
  match dictGet q pid with
  | none => none
  | some p => if p.packet_type == ty then some p else none

/-- Python list.insert(i, x) for i ≤ len. -/
def listInsert (l : List PacketRecord) (i : Nat) (a : PacketRecord) : List PacketRecord :=
  l.take i ++ [a] ++ l.drop i

/-- Modelled from the spec: the PacketIdGenerator of
haka_mqtt/packet_ids.py is not under src/.  The spec says acquire
returns the smallest free identifier (or a policy-equivalent
deterministic choice) and fails when the pool is exhausted; the
repository tests in src/tests/test_reactor.py pin the first two acquired
ids as 0 and 1, so the pool is [0, 2^16-1].  `smallestFree` scans
upward from `cursor` with explicit fuel. -/
def smallestFree (taken : List Nat) (cursor fuel : Nat) : Option Nat :=
  match fuel with
  | 0 => none
  | fuel' + 1 =>
    if taken.contains cursor then smallestFree taken (cursor + 1) fuel'
    else some cursor

/-- Modelled from the spec: PacketIdGenerator.acquire (see
`smallestFree`).  Returns the acquired id and the new taken pool, or
none on exhaustion (PacketIdExhausted). -/
def pidAcquire (taken : List Nat) : Option (Nat × List Nat) :=
  match smallestFree taken 0 65536 with
  | some n => some (n, taken ++ [n])
  | none => none

/-- Modelled from the spec: PacketIdGenerator.release returns an id to
the free pool. -/
def pidRelease (taken : List Nat) (n : Nat) : List Nat :=
  taken.filter (fun m => m != n)

/-- Host-visible effects: callback invocations and ticket mutations
(`_set_status` on host-held ticket objects), in program order. -/
inductive Emit
  | on_connect_fail
  | on_disconnect
  | on_connack
  | on_suback (pid : Nat)
  | on_unsuback (pid : Nat)
  | on_publish
  | on_puback (pid : Nat)
  | on_pubrec (pid : Nat)
  | on_pubcomp (pid : Nat)
  | on_pubrel (pid : Nat)
  | publish_status (pid : Nat) (st : MqttPublishStatus)
  | subscribe_status (pid : Nat) (st : MqttSubscribeStatus)
  | unsubscribe_status (pid : Nat) (st : MqttSubscribeStatus)
deriving DecidableEq, Repr

/-- The reactor aggregate.  Configuration fields (clean_session,
keepalive_period, has_handshake, connect_size) are immutable.  `wbuf`
is the length of the pending tx byte buffer; deadline fields hold the
duration (in half-seconds) each deadline was scheduled with, or none. -/
structure Reactor where
  state : ReactorState
  mqtt_state : MqttState
  sock_state : SocketState
  error : Option ReactorError
  clean_session : Bool
  keepalive_period : Nat
  has_handshake : Bool
  connect_size : Nat
  preflight_queue : List PacketRecord
  inflight_queue : List PacketRecord
  send_path_packet_ids : List Nat
  wbuf : Nat
  pingreq_active : Bool
  keepalive_due_deadline : Option Nat
  keepalive_abort_deadline : Option Nat
  emits : List Emit
deriving DecidableEq, Repr

/-- The freshly constructed reactor (Reactor.__init__). -/
def Reactor.initial (cs : Bool) (keepalive : Nat) (hh : Bool) (csz : Nat) : Reactor :=
  { state := .init
    mqtt_state := .stopped
    sock_state := .stopped
    error := none
    clean_session := cs
    keepalive_period := keepalive
    has_handshake := hh
    connect_size := csz
    preflight_queue := []
    inflight_queue := []
    send_path_packet_ids := []
    wbuf := 0
    pingreq_active := false
    keepalive_due_deadline := none
    keepalive_abort_deadline := none
    emits := [] }

/-- Outcome of a single non-blocking socket.send call, as seen by
__flush: bytes accepted, EWOULDBLOCK, or a socket error (EPIPE and
any other errno both abort with SocketReactorError(errno)).  TLS
want-read and want-write results only touch readiness flags, which no
claim observes, and are omitted. -/
inductive SendResult
  | ok (n : Nat)
  | wouldBlock
  | err (errno : Nat)
deriving DecidableEq, Repr

/-- Whether a send result is a socket error. -/
def SendResult.isErr : SendResult → Bool
  | .err _ => true
  | _ => false

/-- Outcome of socket.do_handshake (TLS handshake progression). -/
inductive HandshakeResult
  | ok
  | wantRead
  | wantWrite
  | err (errno : Nat)
deriving DecidableEq, Repr

/-- __terminate(state, error): close the socket (sock_state stopped,
want flags dropped), pick the disconnect callback from the mqtt state,
reset pingreq, clear the byte buffers, cancel both deadlines, set the
final reactor state and error, set mqtt_state stopped, then fire the
callback.  Note that the preflight and in-flight queues are NOT
cleared. -/
def Reactor.terminateTo (s : Reactor) (st : ReactorState) (e : Option ReactorError) : Reactor :=
  let cb : List Emit :=
    match s.mqtt_state with
    | .connack => [.on_connect_fail]
    | .connected => [.on_disconnect]
    | .mute => [.on_disconnect]
    | .stopped => []
  { s with
    sock_state := .stopped
    pingreq_active := false
    wbuf := 0
    keepalive_abort_deadline := none
    keepalive_due_deadline := none
    state := st
    error := e
    mqtt_state := .stopped
    emits := s.emits ++ cb }

/-- __abort(e): terminate into ReactorState.error with the cause. -/
def Reactor.abort (s : Reactor) (e : ReactorError) : Reactor :=
  s.terminateTo .error (some e)

/-- __abort_protocol_violation / __abort_early_packet: abort with a
ProtocolReactorError. -/
def Reactor.abort_protocol_violation (s : Reactor) : Reactor :=
  s.abort .protocol

/-- The publish-record packet-id list of __on_puback / __on_pubrec:
ids of records with packet_type publish, in in-flight order. -/
def Reactor.inFlightPublishIds (s : Reactor) : List Nat :=
  (s.inflight_queue.filter (fun p => p.packet_type == .publish)).filterMap
    PacketRecord.recPacketId

/-- The head in-flight publish ticket: `inflight_queue[ids[0]]` when
the id list is non-empty (mirrors lines 1286-1287 / 1326-1327 of
reactor.py). -/
def Reactor.headPublishTicket (s : Reactor) : Option MqttPublishTicket :=
  match s.inFlightPublishIds.head? with
  | none => none
  | some k =>
    match dictGet s.inflight_queue k with
    | some (.publish t) => some t
    | _ => none

/-- The pubrel packet-id list of __on_pubcomp. -/
def Reactor.inFlightPubrelIds (s : Reactor) : List Nat :=
  (s.inflight_queue.filter (fun p => p.packet_type == .pubrel)).filterMap
    PacketRecord.recPacketId

/-- __on_puback: accepted only when the head in-flight publish matches
the packet id and has qos 1; then the record is deleted, the packet id
released, the ticket set done and on_puback fired.  All other cases
(qos 2 head, non-head in-flight id, id not in flight, or any packet
before connack) abort with a protocol violation.  The mqtt states mute
and stopped hit Python NotImplementedError paths that are unreachable
(mute is never assigned and packets are only dispatched while the
socket is active); they are modelled as the identity. -/
def Reactor.on_puback (s : Reactor) (pid : Nat) : Reactor :=
  match s.mqtt_state with
  | .connack => s.abort_protocol_violation
  | .connected =>
    match s.headPublishTicket with
    | some t =>
      if t.packet_id = pid then
        if t.qos = 1 then
          { s with
            inflight_queue := dictDel s.inflight_queue pid
            send_path_packet_ids := pidRelease s.send_path_packet_ids t.packet_id
            emits := s.emits ++ [.publish_status pid .done, .on_puback pid] }
        else
          s.abort_protocol_violation
      else if s.inFlightPublishIds.contains pid then
        s.abort_protocol_violation
      else
        s.abort_protocol_violation
    | none => s.abort_protocol_violation
  | .mute => s
  | .stopped => s

/-- __on_pubrec: accepted only when the head in-flight publish matches
and has qos 2; then the publish record is deleted, the insertion index
is captured as the current preflight length, on_pubrec is fired (the
host may re-enter and append `cbAppends` to the preflight queue), and
PUBREL(packet_id) is inserted at the captured index.  Other cases abort
with a protocol violation. -/
def Reactor.on_pubrec (s : Reactor) (pid : Nat) (cbAppends : List PacketRecord) : Reactor :=
  match s.mqtt_state with
  | .connack => s.abort_protocol_violation
  | .connected =>
    match s.headPublishTicket with
    | some t =>
      if t.packet_id = pid then
        if t.qos = 2 then
          { s with
            inflight_queue := dictDel s.inflight_queue pid
            emits := s.emits ++ [.on_pubrec pid]
            preflight_queue :=
              listInsert (s.preflight_queue ++ cbAppends)
                s.preflight_queue.length (.pubrel pid) }
        else
          s.abort_protocol_violation
      else if s.inFlightPublishIds.contains pid then
        s.abort_protocol_violation
      else
        s.abort_protocol_violation
    | none => s.abort_protocol_violation
  | .mute => s
  | .stopped => s

/-- __on_pubcomp: accepted only when the head in-flight pubrel matches;
then the record is deleted and on_pubcomp fired.  The packet id is NOT
released here (nor anywhere else on the qos-2 send path). -/
def Reactor.on_pubcomp (s : Reactor) (pid : Nat) : Reactor :=
  match s.mqtt_state with
  | .connack => s.abort_protocol_violation
  | .connected =>
    match s.inFlightPubrelIds.head? with
    | some k =>
      if k = pid then
        { s with
          inflight_queue := dictDel s.inflight_queue pid
          emits := s.emits ++ [.on_pubcomp pid] }
      else if s.inFlightPubrelIds.contains pid then
        s.abort_protocol_violation
      else
        s.abort_protocol_violation
    | none => s.abort_protocol_violation
  | .mute => s
  | .stopped => s

/-- __on_suback: the in-flight record at the packet id must be a
SUBSCRIBE whose topic count equals the result count; then the ticket is
set done, the id released, the record deleted and on_suback fired. -/
def Reactor.on_suback (s : Reactor) (pid : Nat) (num_results : Nat) : Reactor :=
  match s.mqtt_state with
  | .connack => s.abort_protocol_violation
  | .connected =>
    match get_packet_type s.inflight_queue pid .subscribe with
    | some (.subscribe t) =>
      if num_results = t.topics.length then
        { s with
          emits := s.emits ++ [.subscribe_status pid .done, .on_suback pid]
          send_path_packet_ids := pidRelease s.send_path_packet_ids t.packet_id
          inflight_queue := dictDel s.inflight_queue pid }
      else
        s.abort_protocol_violation
    | _ => s.abort_protocol_violation
  | .mute => s
  | .stopped => s

/-- __on_unsuback: as __on_suback without the result-count check. -/
def Reactor.on_unsuback (s : Reactor) (pid : Nat) : Reactor :=
  match s.mqtt_state with
  | .connack => s.abort_protocol_violation
  | .connected =>
    match get_packet_type s.inflight_queue pid .unsubscribe with
    | some (.unsubscribe t) =>
      { s with
        emits := s.emits ++ [.unsubscribe_status pid .done, .on_unsuback pid]
        send_path_packet_ids := pidRelease s.send_path_packet_ids t.packet_id
        inflight_queue := dictDel s.inflight_queue pid }
    | _ => s.abort_protocol_violation
  | .mute => s
  | .stopped => s

/-- __on_publish (receive path): deliver to the host; in socket state
connected or deaf append PUBACK for qos 1 or PUBREC for qos 2; in mute
skip the reply. -/
def Reactor.on_publish_pkt (s : Reactor) (pid qos : Nat) : Reactor :=
  match s.mqtt_state with
  | .connack => s.abort_protocol_violation
  | .connected =>
    match s.sock_state with
    | .connected | .deaf =>
      if qos = 0 then { s with emits := s.emits ++ [Emit.on_publish] }
      else if qos = 1 then
        { s with
          emits := s.emits ++ [Emit.on_publish]
          preflight_queue := s.preflight_queue ++ [.puback pid] }
      else
        { s with
          emits := s.emits ++ [Emit.on_publish]
          preflight_queue := s.preflight_queue ++ [.pubrec pid] }
    | _ => { s with emits := s.emits ++ [Emit.on_publish] }
  | .mute => s
  | .stopped => s

/-- __on_pingreq: in socket state connected append PINGRESP; ignored
while mute. -/
def Reactor.on_pingreq (s : Reactor) : Reactor :=
  match s.mqtt_state with
  | .connack => s.abort_protocol_violation
  | .connected =>
    match s.sock_state with
    | .connected => { s with preflight_queue := s.preflight_queue ++ [.pingresp] }
    | _ => s
  | .mute => s
  | .stopped => s

/-- __on_pingresp: clears the pending-pingreq flag; a pingresp before
connack is a protocol violation. -/
def Reactor.on_pingresp (s : Reactor) : Reactor :=
  match s.mqtt_state with
  | .connack => s.abort_protocol_violation
  | .connected => { s with pingreq_active := false }
  | .mute => s
  | .stopped => s

/-- __on_pubrel (receive path): deliver on_pubrel then append
PUBCOMP(packet_id) to the preflight tail. -/
def Reactor.on_pubrel (s : Reactor) (pid : Nat) : Reactor :=
  match s.mqtt_state with
  | .connack => s.abort_protocol_violation
  | .connected =>
    { s with
      emits := s.emits ++ [.on_pubrel pid]
      preflight_queue := s.preflight_queue ++ [.pubcomp pid] }
  | .mute => s
  | .stopped => s

/-- __flush: calls socket.send exactly once if the tx buffer is
non-empty.  Returns the updated reactor and the number of bytes
written; would-block writes nothing; any errno aborts with
SocketReactorError(errno). -/
def Reactor.flush (s : Reactor) (res : SendResult) : Reactor × Nat :=
  if s.wbuf = 0 then (s, 0)
  else
    match res with
    | .ok n => (s, n)
    | .wouldBlock => (s, 0)
    | .err e => (s.abort (.socketError e), 0)

/-- The packet-end-offset loop of __launch_packets: encode preflight
records in order while the running buffer size stays within
max_buf_size, stopping after a DISCONNECT; returns the end offsets of
the encoded records and the number of new bytes. -/
def packetEndOffsets (q : List PacketRecord) (wbuf_size max_buf_size : Nat) :
    List Nat × Nat :=
  match q with
  | [] => ([], 0)
  | r :: rest =>
    let n := r.encodedSize
    if wbuf_size + n ≤ max_buf_size then
      if r.packet_type == .disconnect then ([wbuf_size + n], n)
      else
        let (offs, m) := packetEndOffsets rest (wbuf_size + n) max_buf_size
        ((wbuf_size + n) :: offs, n + m)
    else ([], 0)

/-- The launched-message count of __launch_packets: the number of
leading entries of the offset list that are strictly below the flushed
byte count.  The offset list it is applied to starts with the
pre-existing wbuf size (line 1491 of reactor.py) followed by the packet
end offsets. -/
def countLaunched (offsets : List Nat) (flushed : Nat) : Nat :=
  match offsets with
  | [] => 0
  | o :: rest => if flushed > o then 1 + countLaunched rest flushed else 0

/-- The per-record launch actions of __launch_packets: qos-0 publish
releases its id and turns done; qos-1 and qos-2 publishes move to
in-flight with status puback / pubrec; PUBREL and UNSUBSCRIBE move to
in-flight; SUBSCRIBE turns ack and moves to in-flight; DISCONNECT
half-closes the socket (sock_state mute) and cancels the keepalive-due
deadline.  Other packet types need no action. -/
def Reactor.launchRecord (s : Reactor) (r : PacketRecord) : Reactor :=
  match r with
  | .publish t =>
    if t.qos = 0 then
      { s with
        send_path_packet_ids := pidRelease s.send_path_packet_ids t.packet_id
        emits := s.emits ++ [.publish_status t.packet_id .done] }
    else if t.qos = 1 then
      { s with
        emits := s.emits ++ [.publish_status t.packet_id .puback]
        inflight_queue := s.inflight_queue ++ [.publish (t.set_status .puback)] }
    else
      { s with
        emits := s.emits ++ [.publish_status t.packet_id .pubrec]
        inflight_queue := s.inflight_queue ++ [.publish (t.set_status .pubrec)] }
  | .pubrel pid =>
    { s with inflight_queue := s.inflight_queue ++ [.pubrel pid] }
  | .subscribe t =>
    { s with
      emits := s.emits ++ [.subscribe_status t.packet_id .ack]
      inflight_queue := s.inflight_queue ++ [.subscribe (t.set_status .ack)] }
  | .unsubscribe t =>
    { s with inflight_queue := s.inflight_queue ++ [.unsubscribe t] }
  | .disconnect =>
    { s with sock_state := .mute, keepalive_due_deadline := none }
  | _ => s

/-- __launch_packets: build the offset table (seeded with the current
wbuf size), extend the tx buffer with the encoded bytes, flush once,
count how many offset entries the flushed byte count strictly exceeds,
slice that many records off the preflight head, apply the per-record
launch actions, and drop the flushed bytes from the tx buffer. -/
def Reactor.launch_packets (s : Reactor) (res : SendResult) : Reactor :=
  let max_buf_size := 2 ^ 16
  let pr := packetEndOffsets s.preflight_queue s.wbuf max_buf_size
  let packet_end_offsets := s.wbuf :: pr.1
  let s1 : Reactor := { s with wbuf := s.wbuf + pr.2 }
  let fr := s1.flush res
  let num_messages_launched := countLaunched packet_end_offsets fr.2
  let launched_packets := fr.1.preflight_queue.take num_messages_launched
  let s3 : Reactor := { fr.1 with
    preflight_queue := fr.1.preflight_queue.drop num_messages_launched }
  let s4 := launched_packets.foldl Reactor.launchRecord s3
  if fr.2 = 0 then s4
  else { s4 with wbuf := s4.wbuf - fr.2 }

/-- __feed_wbuf: launch packets only when the socket is connected (or
deaf); no bytes can be fed while stopped, mute, resolving or
connecting. -/
def Reactor.feed_wbuf (s : Reactor) (res : SendResult) : Reactor :=
  match s.sock_state with
  | .connected | .deaf => s.launch_packets res
  | _ => s

/-- __set_connack: promote the socket to connected, insert the CONNECT
packet at the head of the preflight queue, and feed the tx buffer. -/
def Reactor.set_connack (s : Reactor) (res : SendResult) : Reactor :=
  let s1 : Reactor := { s with
    sock_state := .connected
    preflight_queue := .connect s.connect_size :: s.preflight_queue }
  s1.feed_wbuf res

/-- __set_handshake: enter the handshake socket state and progress the
TLS handshake; ok promotes to connack emission, want-read / want-write
only update readiness, an error aborts. -/
def Reactor.set_handshake (s : Reactor) (hres : HandshakeResult) (res : SendResult) :
    Reactor :=
  let s1 : Reactor := { s with sock_state := .handshake }
  match hres with
  | .ok => s1.set_connack res
  | .wantRead => s1
  | .wantWrite => s1
  | .err e => s1.abort (.socketError e)

/-- __on_connect: schedule the keepalive-abort deadline with duration
1.5 times the keepalive period (3 times the period in half-second
units), then enter the TLS handshake when the transport supplies one,
else emit the MQTT CONNECT directly. -/
def Reactor.on_connect (s : Reactor) (hres : HandshakeResult) (res : SendResult) :
    Reactor :=
  let s1 : Reactor := { s with
    keepalive_abort_deadline := some (3 * s.keepalive_period) }
  if s1.has_handshake then s1.set_handshake hres res else s1.set_connack res

/-- errno.EINPROGRESS. -/
def EINPROGRESS : Nat := 115

/-- Reactor.write: in the connecting state, read SO_ERROR; the source
line 1850 reads `elif errno.EINPROGRESS:` — the truthiness of the
constant 115, not a comparison with the SO_ERROR value — so every
nonzero SO_ERROR takes the pass branch and the abort branch below it is
dead code.  In handshake the handshake is progressed; when connected
the tx buffer is fed; other socket states take no action. -/
def Reactor.write (s : Reactor) (so_error : Nat) (hres : HandshakeResult)
    (res : SendResult) : Reactor :=
  match s.sock_state with
  | .connecting =>
    if so_error = 0 then s.on_connect hres res
    else if EINPROGRESS ≠ 0 then s
    else s.abort (.socketError so_error)
  | .handshake => s.set_handshake hres res
  | .connected | .deaf => s.feed_wbuf res
  | _ => s

/-- __on_connack_accepted: a session-present flag together with a
requested clean session aborts with a protocol violation
[MQTT-3.2.2-1]; otherwise starting becomes started (stopping stays),
the mqtt state becomes connected, on_connack fires and the tx buffer is
fed. -/
def Reactor.on_connack_accepted (s : Reactor) (session_present : Bool)
    (res : SendResult) : Reactor :=
  if session_present && s.clean_session then
    s.abort_protocol_violation
  else
    let s1 : Reactor :=
      match s.state with
      | .starting => { s with state := .started }
      | _ => s
    let s2 : Reactor := { s1 with
      mqtt_state := .connected
      emits := s1.emits ++ [Emit.on_connack] }
    s2.feed_wbuf res

/-- __on_connack: only legal while awaiting the connack; a second
connack is a protocol violation; a non-accepted return code aborts with
ConnectReactorError. -/
def Reactor.on_connack_pkt (s : Reactor) (session_present : Bool)
    (rc : ConnackResult) (res : SendResult) : Reactor :=
  match s.mqtt_state with
  | .connack =>
    match rc with
    | .accepted => s.on_connack_accepted session_present res
    | _ => s.abort (.connect rc)
  | .connected => s.abort_protocol_violation
  | .mute => s
  | .stopped => s

/-- A decoded inbound MQTT packet (the byte-level rx buffer and the
external decoder are abstracted; packets are processed whole and in
arrival order). -/
inductive InPacket
  | connack (session_present : Bool) (rc : ConnackResult)
  | suback (pid : Nat) (num_results : Nat)
  | unsuback (pid : Nat)
  | puback (pid : Nat)
  | publish (pid : Nat) (qos : Nat)
  | pingreq
  | pingresp
  | pubrel (pid : Nat)
  | pubcomp (pid : Nat)
  | pubrec (pid : Nat)
deriving DecidableEq, Repr

/-- The deadline bookkeeping at the head of __on_recv_bytes: unless the
socket is mute, the keepalive-due deadline is cancelled and
rescheduled with the keepalive period; the keepalive-abort deadline is
always cancelled and rescheduled with 1.5 times the keepalive period
(3 times the period in half-second units). -/
def Reactor.recvReschedule (s : Reactor) : Reactor :=
  let s1 : Reactor :=
    if s.sock_state ≠ .mute then
      { s with keepalive_due_deadline := some (2 * s.keepalive_period) }
    else s
  { s1 with keepalive_abort_deadline := some (3 * s1.keepalive_period) }

/-- __on_recv_bytes for a chunk holding exactly one decoded packet:
reschedule the keepalive deadlines, then dispatch on the packet type.
`res` is the outcome of the socket send performed if the handler feeds
the tx buffer (only connack does); `cbAppends` are the preflight
records appended by a host re-entering from on_pubrec. -/
def Reactor.on_recv_packet (s : Reactor) (p : InPacket) (res : SendResult)
    (cbAppends : List PacketRecord) : Reactor :=
  let s1 := s.recvReschedule
  match p with
  | .connack sp rc => s1.on_connack_pkt sp rc res
  | .suback pid n => s1.on_suback pid n
  | .unsuback pid => s1.on_unsuback pid
  | .puback pid => s1.on_puback pid
  | .publish pid qos => s1.on_publish_pkt pid qos
  | .pingreq => s1.on_pingreq
  | .pingresp => s1.on_pingresp
  | .pubrel pid => s1.on_pubrel pid
  | .pubcomp pid => s1.on_pubcomp pid
  | .pubrec pid => s1.on_pubrec pid cbAppends

/-- __on_muted_remote: an EOF while handshaking or connected aborts
with MutePeerReactorError; while mute it is the peer finishing the
graceful shutdown, terminating into stopped. -/
def Reactor.on_muted_remote (s : Reactor) : Reactor :=
  match s.sock_state with
  | .handshake | .connected => s.abort .mutePeer
  | .mute => s.terminateTo .stopped none
  | _ => s

/-- Outcome of the single recv call made by Reactor.read. -/
inductive RecvResult
  | pkt (p : InPacket)
  | eof
  | wouldBlock
  | decodeFail
  | err (errno : Nat)
deriving DecidableEq, Repr

/-- Reactor.read: no-op outside the connected / mute / handshake socket
states; in handshake progresses the TLS handshake; when connected or
mute, a packet is dispatched, EOF reaches __on_muted_remote, a decode
failure aborts with DecodeReactorError and an errno other than
EWOULDBLOCK aborts with SocketReactorError. -/
def Reactor.read (s : Reactor) (r : RecvResult) (hres : HandshakeResult)
    (res : SendResult) (cbAppends : List PacketRecord) : Reactor :=
  match s.sock_state with
  | .handshake => s.set_handshake hres res
  | .connected | .mute =>
    match r with
    | .pkt p => s.on_recv_packet p res cbAppends
    | .eof => s.on_muted_remote
    | .wouldBlock => s
    | .decodeFail => s.abort .decode
    | .err e => s.abort (.socketError e)
  | _ => s

/-- The queue rebuild of __start (lines 742-767 of reactor.py): every
in-flight publish survives into the new preflight queue — a qos-1
publish (whose status is asserted to be puback) gets its dupe flag set,
a qos-2 publish gets it set only when its status is pubrec — all other
in-flight records are dropped; of the old preflight queue only publish
and pubrel records survive.  `clean_session` is not consulted and no
packet id is released. -/
def startRebuildPre (inflight preflight_q : List PacketRecord) : List PacketRecord :=
  (inflight.filterMap (fun p =>
    match p with
    | .publish t =>
      if t.qos = 1 then some (.publish t.set_dupe)
      else if t.qos = 2 then
        some (.publish (if t.status == .pubrec then t.set_dupe else t))
      else none
    | _ => none))
  ++ preflight_q.filter (fun p =>
       p.packet_type == .publish || p.packet_type == .pubrel)

/-- __start: reset the error and the transient flags, rebuild the
preflight queue (see `startRebuildPre`), clear the in-flight queue and
the byte buffers, and enter starting / name_resolution / connack. -/
def Reactor.startInternal (s : Reactor) : Reactor :=
  { s with
    error := none
    pingreq_active := false
    preflight_queue := startRebuildPre s.inflight_queue s.preflight_queue
    inflight_queue := []
    wbuf := 0
    state := .starting
    sock_state := .name_resolution
    mqtt_state := .connack }

/-- Reactor.start: connect when in an inactive state; no effect in the
active states (the source only logs a warning). -/
def Reactor.start (s : Reactor) : Reactor :=
  if INACTIVE_STATES.contains s.state then s.startInternal else s

/-- Reactor.stop: init goes straight to stopped; while starting or
started, a socket that has not yet reached connack emission terminates
immediately to stopped, otherwise the reactor turns stopping and a
DISCONNECT is appended to the preflight queue; stopping, stopped and
error take no action. -/
def Reactor.stop (s : Reactor) : Reactor :=
  match s.state with
  | .init => { s with state := .stopped }
  | .starting | .started =>
    match s.sock_state with
    | .name_resolution | .connecting | .handshake => s.terminateTo .stopped none
    | _ =>
      { s with
        state := .stopping
        preflight_queue := s.preflight_queue ++ [.disconnect] }
  | .stopping => s
  | .stopped => s
  | .error => s

/-- Reactor.terminate: abrupt shutdown when in an active state; no
effect in the inactive states. -/
def Reactor.terminate (s : Reactor) : Reactor :=
  if ACTIVE_STATES.contains s.state then s.terminateTo .stopped none else s

/-- Reactor.publish: acquire a packet id (none on exhaustion, in which
case the PacketIdExhausted exception propagates before any mutation),
build a publish ticket with dupe false and status preflight, and append
it to the preflight tail.  No state is consulted. -/
def Reactor.publish (s : Reactor) (topic payload qos : Nat) (retain : Bool)
    (size : Nat) : Option (Reactor × MqttPublishTicket) :=
  match pidAcquire s.send_path_packet_ids with
  | none => none
  | some (pid, taken) =>
    let t : MqttPublishTicket :=
      { packet_id := pid, topic := topic, payload := payload, qos := qos
        retain := retain, dupe := false, status := .preflight, size := size }
    some ({ s with
      send_path_packet_ids := taken
      preflight_queue := s.preflight_queue ++ [.publish t] }, t)

/-- Reactor.subscribe: acquire a packet id and append a subscribe
ticket (status preflight) to the preflight tail.  No state is
consulted. -/
def Reactor.subscribe (s : Reactor) (topics : List Nat) (size : Nat) :
    Option (Reactor × MqttSubscribeTicket) :=
  match pidAcquire s.send_path_packet_ids with
  | none => none
  | some (pid, taken) =>
    let t : MqttSubscribeTicket :=
      { packet_id := pid, topics := topics, status := .preflight, size := size }
    some ({ s with
      send_path_packet_ids := taken
      preflight_queue := s.preflight_queue ++ [.subscribe t] }, t)

/-- Reactor.unsubscribe: as subscribe with an unsubscribe ticket. -/
def Reactor.unsubscribe (s : Reactor) (topics : List Nat) (size : Nat) :
    Option (Reactor × MqttUnsubscribeTicket) :=
  match pidAcquire s.send_path_packet_ids with
  | none => none
  | some (pid, taken) =>
    let t : MqttUnsubscribeTicket :=
      { packet_id := pid, topics := topics, status := .preflight, size := size }
    some ({ s with
      send_path_packet_ids := taken
      preflight_queue := s.preflight_queue ++ [.unsubscribe t] }, t)

/-- Outcome of the non-blocking socket.connect issued by __connect. -/
inductive ConnectOutcome
  | einprogress
  | immediate (hres : HandshakeResult) (res : SendResult)
  | err (errno : Nat)
deriving DecidableEq, Repr

/-- Outcome of the name-resolution future. -/
inductive NameRes
  | failed
  | empty
  | found (co : ConnectOutcome)
deriving DecidableEq, Repr

/-- __on_name_resolution followed by __connect: a failed or empty
resolution aborts with AddressReactorError; otherwise the first address
is chosen, the socket enters connecting and connect is issued —
EINPROGRESS leaves the reactor waiting for writability, an immediate
connect runs __on_connect, any other errno aborts. -/
def Reactor.on_name_resolution (s : Reactor) (nr : NameRes) : Reactor :=
  match nr with
  | .failed => s.abort .address
  | .empty => s.abort .address
  | .found co =>
    let s1 : Reactor := { s with sock_state := .connecting }
    match co with
    | .einprogress => s1
    | .err e => s1.abort (.socketError e)
    | .immediate hres res => s1.on_connect hres res

/-- __keepalive_due_timeout: mark the pingreq pending, append PINGREQ
to the preflight tail and null the due deadline. -/
def Reactor.keepalive_due_timeout (s : Reactor) : Reactor :=
  { s with
    pingreq_active := true
    preflight_queue := s.preflight_queue ++ [.pingreq]
    keepalive_due_deadline := none }

/-- __keepalive_abort_timeout: null the abort deadline and abort with
KeepaliveTimeoutReactorError. -/
def Reactor.keepalive_abort_timeout (s : Reactor) : Reactor :=
  let s1 : Reactor := { s with keepalive_abort_deadline := none }
  s1.abort .keepaliveTimeout

/-- An external stimulus driving the reactor: a host API call, an I/O
readiness callback with the observed socket outcomes, a name-resolution
completion, or a scheduler deadline firing. -/
inductive Event
  | evStart
  | evStop
  | evTerminate
  | evPublish (topic payload qos : Nat) (retain : Bool) (size : Nat)
  | evSubscribe (topics : List Nat) (size : Nat)
  | evUnsubscribe (topics : List Nat) (size : Nat)
  | evNameResolved (nr : NameRes)
  | evWrite (so_error : Nat) (hres : HandshakeResult) (res : SendResult)
  | evRead (r : RecvResult) (hres : HandshakeResult) (res : SendResult)
  | evKeepaliveDue
  | evKeepaliveAbort
deriving DecidableEq, Repr

/-- One event step.  `none` marks a stimulus the environment cannot
deliver (a deadline that is not pending cannot fire, a cancelled
name-resolution future is discarded, a Python assertion guards the
handler): such runs are not behaviours of the program.  Host re-entry
during on_pubrec is not exercised by the runner (`cbAppends = []`). -/
def runEvent (s : Reactor) (e : Event) : Option Reactor :=
  match e with
  | .evStart => some s.start
  | .evStop => some s.stop
  | .evTerminate => some s.terminate
  | .evPublish topic payload qos retain size =>
    if qos ≤ 2 then (s.publish topic payload qos retain size).map Prod.fst else none
  | .evSubscribe topics size => (s.subscribe topics size).map Prod.fst
  | .evUnsubscribe topics size => (s.unsubscribe topics size).map Prod.fst
  | .evNameResolved nr =>
    if s.sock_state == .name_resolution then some (s.on_name_resolution nr)
    else none
  | .evWrite so hres res => some (s.write so hres res)
  | .evRead r hres res => some (s.read r hres res [])
  | .evKeepaliveDue =>
    if s.keepalive_due_deadline.isSome && s.sock_state == .connected
        && s.mqtt_state == .connected && !s.pingreq_active then
      some s.keepalive_due_timeout
    else none
  | .evKeepaliveAbort =>
    if s.keepalive_abort_deadline.isSome && s.keepalive_due_deadline == none
        && (s.sock_state == .handshake || s.sock_state == .connected
            || s.sock_state == .mute || s.sock_state == .deaf) then
      some s.keepalive_abort_timeout
    else none

/-- Run a list of events from a state. -/
def runEvents (s : Reactor) : List Event → Option Reactor
  | [] => some s
  | e :: rest =>
    match runEvent s e with
    | none => none
    | some s1 => runEvents s1 rest

/-- A state is reachable when some run from a freshly constructed
reactor produces it. -/
def Reachable (s : Reactor) : Prop :=
  ∃ (cs : Bool) (keepalive : Nat) (hh : Bool) (csz : Nat) (evs : List Event),
    runEvents (Reactor.initial cs keepalive hh csz) evs = some s

/-! ## Invariant definitions and concrete scenario inputs -/

/-- The packet id reserved by a queue record, if any: send-path
SUBSCRIBE / UNSUBSCRIBE / PUBLISH / PUBREL records reserve their id;
receive-path PUBACK / PUBREC / PUBCOMP packets and id-less packets do
not. -/
def PacketRecord.reservesId : PacketRecord → Option Nat
  | .publish t => some t.packet_id
  | .pubrel pid => some pid
  | .subscribe t => some t.packet_id
  | .unsubscribe t => some t.packet_id
  | _ => none

/-- The packet ids reserved by the records of a queue. -/
def reservedIds (q : List PacketRecord) : List Nat :=
  q.filterMap PacketRecord.reservesId

/-- Set equality of two id lists. -/
def sameSet (a b : List Nat) : Bool :=
  a.all (fun n => b.contains n) && b.all (fun n => a.contains n)

/-- Invariant 8 of the spec: the ids held by the packet-id allocator
equal the ids reserved by preflight and in-flight records. -/
def pidSetInvariant (s : Reactor) : Bool :=
  sameSet s.send_path_packet_ids
    (reservedIds (s.preflight_queue ++ s.inflight_queue))

/-- The socket states in which the spec requires a pending
keepalive-abort deadline. -/
def sockWantsAbortDeadline (s : Reactor) : Prop :=
  s.sock_state = .handshake ∨ s.sock_state = .connected
    ∨ s.sock_state = .mute ∨ s.sock_state = .deaf

instance (s : Reactor) : Decidable (sockWantsAbortDeadline s) := by
  unfold sockWantsAbortDeadline; infer_instance

/-- Invariant 5 of the spec (asserted by __assert_state_rules lines
609-612): a keepalive-abort deadline is pending whenever the socket is
in handshake, connected, mute or deaf. -/
def abortDeadlineInv (s : Reactor) : Prop :=
  sockWantsAbortDeadline s → s.keepalive_abort_deadline ≠ none

/-- C3 scenario: a qos-0 publish ticket whose encoded size is 5 bytes
(e.g. a one-byte topic and an empty payload). -/
def c3Ticket : MqttPublishTicket :=
  { packet_id := 0, topic := 1, payload := 2, qos := 0, retain := false
    dupe := false, status := .preflight, size := 5 }

/-- C3 scenario: a connected reactor whose preflight queue holds the
single 5-byte qos-0 publish and whose tx buffer is empty. -/
def c3State : Reactor :=
  { Reactor.initial false 10 false 20 with
    state := .started
    mqtt_state := .connected
    sock_state := .connected
    keepalive_abort_deadline := some 30
    keepalive_due_deadline := some 20
    preflight_queue := [.publish c3Ticket]
    send_path_packet_ids := [0] }

/-- C4 scenario: an unacknowledged qos-1 publish ticket left in flight
by the previous session. -/
def c4Publish : MqttPublishTicket :=
  { packet_id := 0, topic := 1, payload := 2, qos := 1, retain := false
    dupe := false, status := .puback, size := 9 }

/-- C4 scenario: a subscribe ticket left in preflight by the previous
session. -/
def c4Subscribe : MqttSubscribeTicket :=
  { packet_id := 1, topics := [7], status := .preflight, size := 8 }

/-- C4 scenario: an inactive reactor with clean_session = true, one
in-flight qos-1 publish and one preflight subscribe, both ids taken. -/
def c4State : Reactor :=
  { Reactor.initial true 10 false 20 with
    state := .error
    error := some .keepaliveTimeout
    inflight_queue := [.publish c4Publish]
    preflight_queue := [.subscribe c4Subscribe]
    send_path_packet_ids := [0, 1] }

/-- C5 scenario: a complete qos-2 publish exchange — start, resolve,
connect, CONNACK, publish qos 2, launch, PUBREC, launch of the PUBREL,
PUBCOMP. -/
def c5Events : List Event :=
  [ .evStart
  , .evNameResolved (.found .einprogress)
  , .evWrite 0 .ok (.ok 20)
  , .evRead (.pkt (.connack false .accepted)) .ok .wouldBlock
  , .evPublish 5 6 2 false 7
  , .evWrite 0 .ok (.ok 7)
  , .evRead (.pkt (.pubrec 0)) .ok .wouldBlock
  , .evWrite 0 .ok (.ok 4)
  , .evRead (.pkt (.pubcomp 0)) .ok .wouldBlock ]

/-- C5 scenario: the freshly constructed reactor the events run from. -/
def c5Init : Reactor := Reactor.initial false 10 false 20

/-- C6 scenario: keepalive period 1 second; start, resolve, connect and
receive the CONNACK, whose bytes reschedule the keepalive-abort
deadline. -/
def c6Events : List Event :=
  [ .evStart
  , .evNameResolved (.found .einprogress)
  , .evWrite 0 .ok (.ok 20)
  , .evRead (.pkt (.connack false .accepted)) .ok .wouldBlock ]

/-- C6 scenario: a reactor with keepalive period 1. -/
def c6Init : Reactor := Reactor.initial false 1 false 20

/-- C6 witness scenario: the state the run of c6Events reaches — a
started, connected reactor with keepalive period 1 whose keepalive-due
deadline is 2 half-seconds and keepalive-abort deadline 3 half-seconds. -/
def c6wState : Reactor :=
  { Reactor.initial false 1 false 20 with
    state := .started
    mqtt_state := .connected
    sock_state := .connected
    keepalive_due_deadline := some 2
    keepalive_abort_deadline := some 3
    emits := [Emit.on_connack] }

/-- C7 scenario: a reactor waiting for its non-blocking connect to
complete. -/
def c7State : Reactor :=
  { Reactor.initial false 10 false 20 with
    state := .starting
    mqtt_state := .connack
    sock_state := .connecting }

/-- errno.ECONNREFUSED, a representative nonzero SO_ERROR value. -/
def ECONNREFUSED : Nat := 111

/-- C1 witness scenario: one qos-1 publish in flight with id 0. -/
def c1Ticket : MqttPublishTicket :=
  { packet_id := 0, topic := 1, payload := 2, qos := 1, retain := false
    dupe := false, status := .puback, size := 9 }

/-- C1 witness scenario: a connected reactor with the qos-1 publish in
flight. -/
def c1State : Reactor :=
  { Reactor.initial false 10 false 20 with
    state := .started
    mqtt_state := .connected
    sock_state := .connected
    keepalive_abort_deadline := some 30
    keepalive_due_deadline := some 20
    inflight_queue := [.publish c1Ticket]
    send_path_packet_ids := [0] }

/-- C2 witness scenario: one qos-2 publish in flight with id 0. -/
def c2Ticket : MqttPublishTicket :=
  { packet_id := 0, topic := 1, payload := 2, qos := 2, retain := false
    dupe := false, status := .pubrec, size := 9 }

/-- C2 witness scenario: a connected reactor with the qos-2 publish in
flight and one receive-path PUBACK already in preflight. -/
def c2State : Reactor :=
  { Reactor.initial false 10 false 20 with
    state := .started
    mqtt_state := .connected
    sock_state := .connected
    keepalive_abort_deadline := some 30
    keepalive_due_deadline := some 20
    preflight_queue := [.puback 9]
    inflight_queue := [.publish c2Ticket]
    send_path_packet_ids := [0] }

/-- C8 witness scenario: a reactor awaiting its CONNACK with
clean_session = true. -/
def c8State : Reactor :=
  { Reactor.initial true 10 false 20 with
    state := .starting
    mqtt_state := .connack
    sock_state := .connected
    keepalive_abort_deadline := some 30 }

/-- C9 witness scenario: a started reactor. -/
def c9Started : Reactor :=
  { Reactor.initial false 10 false 20 with
    state := .started
    mqtt_state := .connected
    sock_state := .connected
    keepalive_abort_deadline := some 30 }

/-- C9 witness scenario: a stopped reactor. -/
def c9Stopped : Reactor :=
  { Reactor.initial false 10 false 20 with state := .stopped }

/-- C9 witness scenario: a freshly constructed reactor. -/
def c9Init : Reactor := Reactor.initial false 10 false 20

/-- C10 witness scenario: a reactor in the error state with one id
taken. -/
def c10State : Reactor :=
  { Reactor.initial false 10 false 20 with
    state := .error
    error := some .keepaliveTimeout
    send_path_packet_ids := [0] }

/-! ## Helper lemmas -/

theorem smallestFree_not_mem (taken : List Nat) :
    ∀ cursor fuel n, smallestFree taken cursor fuel = some n → ¬ n ∈ taken := by
  intro cursor fuel
  induction fuel generalizing cursor with
  | zero => intro n h; simp [smallestFree] at h
  | succ fuel ih =>
    intro n h
    unfold smallestFree at h
    by_cases hc : taken.contains cursor = true
    · rw [if_pos hc] at h
      exact ih (cursor + 1) n h
    · rw [if_neg hc] at h
      injection h with h
      subst h
      simpa using hc

theorem pidAcquire_fresh (taken : List Nat) (pid : Nat) (rest : List Nat)
    (h : pidAcquire taken = some (pid, rest)) :
    ¬ pid ∈ taken ∧ rest = taken ++ [pid] := by
  unfold pidAcquire at h
  cases hs : smallestFree taken 0 65536 with
  | none => simp [hs] at h
  | some n =>
    simp only [hs] at h
    have h' := Option.some.inj h
    have hn : n = pid := congrArg Prod.fst h'
    have hr : taken ++ [n] = rest := congrArg Prod.snd h'
    subst hn
    exact ⟨smallestFree_not_mem taken 0 65536 n hs, hr.symm⟩

theorem pidRelease_not_mem (g : List Nat) (n : Nat) : ¬ n ∈ pidRelease g n := by
  simp [pidRelease]

theorem dictGet_dictDel (q : List PacketRecord) (pid : Nat) :
    dictGet (dictDel q pid) pid = none := by
  unfold dictGet dictDel
  rw [List.find?_eq_none]
  intro x hx
  rw [List.mem_filter] at hx
  have hx2 := hx.2
  rw [bne_iff_ne] at hx2
  simp [hx2]

theorem listInsert_at_append (P A : List PacketRecord) (x : PacketRecord) :
    listInsert (P ++ A) P.length x = P ++ [x] ++ A := by
  unfold listInsert
  rw [List.take_left, List.drop_left]

theorem launchRecord_preserves (s : Reactor) (r : PacketRecord) :
    (s.launchRecord r).state = s.state ∧
    (s.launchRecord r).mqtt_state = s.mqtt_state ∧
    (s.launchRecord r).error = s.error ∧
    (s.launchRecord r).keepalive_abort_deadline = s.keepalive_abort_deadline := by
  cases r
  all_goals simp only [Reactor.launchRecord]
  all_goals try exact ⟨trivial, trivial, trivial, trivial⟩
  all_goals split_ifs <;> exact ⟨rfl, rfl, rfl, rfl⟩

theorem foldl_launchRecord_preserves (l : List PacketRecord) (s : Reactor) :
    ((l.foldl Reactor.launchRecord s).state = s.state ∧
     (l.foldl Reactor.launchRecord s).mqtt_state = s.mqtt_state ∧
     (l.foldl Reactor.launchRecord s).error = s.error ∧
     (l.foldl Reactor.launchRecord s).keepalive_abort_deadline
       = s.keepalive_abort_deadline) := by
  induction l generalizing s with
  | nil => exact ⟨rfl, rfl, rfl, rfl⟩
  | cons r rest ih =>
    have h1 := launchRecord_preserves s r
    have h2 := ih (s.launchRecord r)
    exact ⟨h2.1.trans h1.1, h2.2.1.trans h1.2.1, h2.2.2.1.trans h1.2.2.1,
      h2.2.2.2.trans h1.2.2.2⟩

theorem launch_packets_preserves (s : Reactor) (res : SendResult)
    (h : res.isErr = false) :
    (s.launch_packets res).state = s.state ∧
    (s.launch_packets res).mqtt_state = s.mqtt_state ∧
    (s.launch_packets res).error = s.error ∧
    (s.launch_packets res).keepalive_abort_deadline
      = s.keepalive_abort_deadline := by
  cases res with
  | err e => simp [SendResult.isErr] at h
  | ok n =>
    refine ⟨?_, ?_, ?_, ?_⟩ <;>
    · simp only [Reactor.launch_packets, Reactor.flush]
      split_ifs <;>
        first
        | rfl
        | exact (foldl_launchRecord_preserves _ _).1
        | exact (foldl_launchRecord_preserves _ _).2.1
        | exact (foldl_launchRecord_preserves _ _).2.2.1
        | exact (foldl_launchRecord_preserves _ _).2.2.2
  | wouldBlock =>
    refine ⟨?_, ?_, ?_, ?_⟩ <;>
    · simp only [Reactor.launch_packets, Reactor.flush]
      split_ifs <;>
        first
        | rfl
        | exact (foldl_launchRecord_preserves _ _).1
        | exact (foldl_launchRecord_preserves _ _).2.1
        | exact (foldl_launchRecord_preserves _ _).2.2.1
        | exact (foldl_launchRecord_preserves _ _).2.2.2

theorem feed_wbuf_preserves (s : Reactor) (res : SendResult)
    (h : res.isErr = false) :
    (s.feed_wbuf res).state = s.state ∧
    (s.feed_wbuf res).mqtt_state = s.mqtt_state ∧
    (s.feed_wbuf res).error = s.error ∧
    (s.feed_wbuf res).keepalive_abort_deadline
      = s.keepalive_abort_deadline := by
  unfold Reactor.feed_wbuf
  cases hs : s.sock_state
  all_goals try exact ⟨rfl, rfl, rfl, rfl⟩
  all_goals exact launch_packets_preserves s res h

/-! ## Claim theorems -/

/-- Claim C3 (status: code_bug).  The claim says a preflight packet is
launched exactly when the flushed byte count reaches or exceeds the
packet's end offset in the tx buffer, and that a partially transmitted
packet is not launched — matching the comment diagram above line 1491
of reactor.py and the spec.  The code seeds packet_end_offsets with the
pre-existing wbuf size and compares with strict greater-than, which
launches a packet as soon as a single byte of it is flushed.  Here a
5-byte qos-0 publish has only 3 of its bytes accepted by the socket,
yet it is launched: it leaves the preflight queue, its ticket is set
done and its packet id is released, while 2 of its bytes are still
pending in the tx buffer. -/
theorem c3_half_sent_packet_launched :
    (c3State.launch_packets (.ok 3)).preflight_queue = [] ∧
    (c3State.launch_packets (.ok 3)).send_path_packet_ids = [] ∧
    (c3State.launch_packets (.ok 3)).emits = [.publish_status 0 .done] ∧
    (c3State.launch_packets (.ok 3)).wbuf = 2 ∧
    (PacketRecord.publish c3Ticket).encodedSize = 5 ∧ ¬ (5 : Nat) ≤ 3 := by
  decide

/-- Claim C4 (status: code_bug).  The claim says start from an inactive
state with clean_session = true discards all ticket identity and
releases the packet ids, and that every rebuild returns the ids of
dropped records to the free pool.  __start (lines 742-767 of
reactor.py) never consults clean_session and never releases an id: from
an error state with clean_session = true, one in-flight qos-1 publish
(id 0) and one preflight subscribe (id 1), start keeps the publish in
the new preflight queue with its dupe flag set, drops the subscribe,
and leaves both ids in the allocator. -/
theorem c4_clean_session_ignored_and_ids_leak :
    c4State.clean_session = true ∧
    c4State.start.preflight_queue = [.publish c4Publish.set_dupe] ∧
    c4State.start.inflight_queue = [] ∧
    c4State.start.send_path_packet_ids = [0, 1] := by
  decide

/-- Claim C5 (status: code_bug).  The claim is invariant 8 of the spec:
the allocator's ids equal the ids reserved by preflight and in-flight
records, preserved by every public operation.  __on_pubcomp (lines
1362-1393 of reactor.py) deletes the head in-flight PUBREL without
releasing its packet id, so after a complete qos-2 publish exchange
(reached here by a concrete event run from a fresh reactor) both queues
are empty while the allocator still holds id 0. -/
theorem c5_pid_invariant_broken_by_pubcomp :
    (runEvents c5Init c5Events).map Reactor.send_path_packet_ids = some [0] ∧
    (runEvents c5Init c5Events).map Reactor.preflight_queue = some [] ∧
    (runEvents c5Init c5Events).map Reactor.inflight_queue = some [] ∧
    (runEvents c5Init c5Events).map pidSetInvariant = some false := by
  decide

/-- Claim C6, counterexample (status: corrected).  The claim says the
keepalive-abort deadline is scheduled with duration ⌊1.5·K⌋ measured
from the last received byte.  The code schedules
scheduler.add(1.5*self.keepalive_period, ...) without flooring (lines
1023-1024 and 1658-1659 of reactor.py); durations here are in
half-second units, so the scheduled duration is 3·K half-seconds.
With K = 1 the inbound CONNACK leaves a deadline of 3 half-seconds
(1.5 s), while ⌊1.5·1⌋ = 1 s is 2 half-seconds. -/
theorem c6_abort_deadline_not_floored :
    (runEvents c6Init c6Events).map Reactor.keepalive_abort_deadline
      = some (some (3 * 1)) ∧
    (runEvents c6Init c6Events).map Reactor.sock_state
      = some SocketState.connected ∧
    3 * 1 ≠ 2 * (3 * 1 / 2) := by
  decide

/-- Claim C7 (status: code_bug).  The claim says that when write is
called in the connecting state, a nonzero SO_ERROR aborts the reactor
with SocketError carrying that errno.  Line 1850 of reactor.py reads
`elif errno.EINPROGRESS:` — the truthiness of the constant 115 instead
of a comparison with the SO_ERROR value — so every nonzero SO_ERROR
takes the pass branch: with SO_ERROR = ECONNREFUSED the reactor is left
entirely unchanged and never reaches the error state. -/
theorem c7_nonzero_so_error_ignored :
    c7State.write ECONNREFUSED .ok .wouldBlock = c7State ∧
    (c7State.write ECONNREFUSED .ok .wouldBlock).state ≠ .error ∧
    ECONNREFUSED ≠ 0 := by
  decide

/-- Claim C9 (status: confirmed).  start in any active state, stop in
stopped or error, and terminate in any inactive state leave the reactor
unchanged — here literally the identity on the whole aggregate, which
subsumes the claim's observable tuple (ReactorState, SocketState,
MqttState, error, queues). -/
theorem c9_lifecycle_idempotence (s : Reactor) :
    ((s.state = .starting ∨ s.state = .started ∨ s.state = .stopping) →
      s.start = s) ∧
    ((s.state = .stopped ∨ s.state = .error) → s.stop = s) ∧
    ((s.state = .init ∨ s.state = .stopped ∨ s.state = .error) →
      s.terminate = s) := by
  refine ⟨?_, ?_, ?_⟩
  · intro h
    unfold Reactor.start
    rcases h with h | h | h <;> rw [h] <;> rfl
  · intro h
    unfold Reactor.stop
    rcases h with h | h <;> rw [h]
  · intro h
    unfold Reactor.terminate
    rcases h with h | h | h <;> rw [h] <;> rfl

/-- Witness for C9 at a started, a stopped and a freshly constructed
reactor. -/
theorem c9_lifecycle_idempotence_witness :
    c9Started.start = c9Started ∧ c9Stopped.stop = c9Stopped ∧
    c9Init.terminate = c9Init :=
  ⟨(c9_lifecycle_idempotence c9Started).1 (Or.inr (Or.inl rfl)),
   (c9_lifecycle_idempotence c9Stopped).2.1 (Or.inl rfl),
   (c9_lifecycle_idempotence c9Init).2.2 (Or.inl rfl)⟩

/-- Claim C10 (status: confirmed).  publish, subscribe and unsubscribe
consult no state variable: whenever the allocator has a free id they
acquire it (fresh: not previously taken), append a ticket with status
preflight to the preflight tail, return the ticket, and change nothing
else — in particular ReactorState, SocketState and MqttState are
untouched, also in the inactive states init, stopped and error. -/
theorem c10_submit_in_any_state (s : Reactor) (topic payload qos : Nat)
    (retain : Bool) (size : Nat) (topics : List Nat) (pid : Nat)
    (taken : List Nat)
    (hacq : pidAcquire s.send_path_packet_ids = some (pid, taken)) :
    s.publish topic payload qos retain size =
      some ({ s with
              send_path_packet_ids := taken
              preflight_queue := s.preflight_queue ++ [.publish
                { packet_id := pid, topic := topic, payload := payload
                  qos := qos, retain := retain, dupe := false
                  status := .preflight, size := size }] },
            { packet_id := pid, topic := topic, payload := payload
              qos := qos, retain := retain, dupe := false
              status := .preflight, size := size }) ∧
    s.subscribe topics size =
      some ({ s with
              send_path_packet_ids := taken
              preflight_queue := s.preflight_queue ++ [.subscribe
                { packet_id := pid, topics := topics
                  status := .preflight, size := size }] },
            { packet_id := pid, topics := topics
              status := .preflight, size := size }) ∧
    s.unsubscribe topics size =
      some ({ s with
              send_path_packet_ids := taken
              preflight_queue := s.preflight_queue ++ [.unsubscribe
                { packet_id := pid, topics := topics
                  status := .preflight, size := size }] },
            { packet_id := pid, topics := topics
              status := .preflight, size := size }) ∧
    ¬ pid ∈ s.send_path_packet_ids ∧
    taken = s.send_path_packet_ids ++ [pid] := by
  obtain ⟨hfresh, htaken⟩ := pidAcquire_fresh _ _ _ hacq
  refine ⟨?_, ?_, ?_, hfresh, htaken⟩
  · unfold Reactor.publish
    rw [hacq]
  · unfold Reactor.subscribe
    rw [hacq]
  · unfold Reactor.unsubscribe
    rw [hacq]

/-- Witness for C10 at a reactor in the error state whose allocator
holds id 0: the submissions succeed and acquire the fresh id 1. -/
theorem c10_submit_in_any_state_witness :
    (c10State.publish 3 4 1 false 9).isSome = true ∧
    (c10State.subscribe [5] 9).isSome = true ∧
    ¬ 1 ∈ c10State.send_path_packet_ids ∧
    c10State.state = .error := by
  have h := c10_submit_in_any_state c10State 3 4 1 false 9 [5] 1 [0, 1]
    (by decide)
  refine ⟨?_, ?_, h.2.2.2.1, rfl⟩
  · rw [h.1]; rfl
  · rw [h.2.1]; rfl

/-- Claim C1 (status: confirmed).  Stated for every state with
MqttState = connected (a superset of the reachable ones): an inbound
PUBACK is accepted exactly when the head in-flight publish record
matches the packet id with qos 1 — then the id is released (no longer
taken), the record is dropped from in-flight, the ticket is set done
and on_puback fires, with no state change; in every other case
(qos-2 head, non-head in-flight id, or id not in flight) the reactor
aborts into ReactorState.error with a ProtocolReactorError. -/
theorem c1_puback_accept_or_protocol_error (s : Reactor) (pid : Nat)
    (hmq : s.mqtt_state = .connected) :
    (∀ t, s.headPublishTicket = some t → t.packet_id = pid → t.qos = 1 →
      s.on_puback pid =
        { s with
          inflight_queue := dictDel s.inflight_queue pid
          send_path_packet_ids := pidRelease s.send_path_packet_ids pid
          emits := s.emits ++ [.publish_status pid .done, .on_puback pid] } ∧
      ¬ pid ∈ (s.on_puback pid).send_path_packet_ids ∧
      dictGet (s.on_puback pid).inflight_queue pid = none ∧
      (s.on_puback pid).state = s.state ∧
      (s.on_puback pid).error = s.error) ∧
    ((∀ t, ¬ (s.headPublishTicket = some t ∧ t.packet_id = pid ∧ t.qos = 1)) →
      (s.on_puback pid).state = .error ∧
      (s.on_puback pid).error = some .protocol) := by
  constructor
  · intro t ht hpid hqos
    have heq : s.on_puback pid =
        { s with
          inflight_queue := dictDel s.inflight_queue pid
          send_path_packet_ids := pidRelease s.send_path_packet_ids pid
          emits := s.emits ++ [.publish_status pid .done, .on_puback pid] } := by
      simp [Reactor.on_puback, hmq, ht, hpid, hqos]
    refine ⟨heq, ?_, ?_, ?_, ?_⟩
    · rw [heq]; exact pidRelease_not_mem _ _
    · rw [heq]; exact dictGet_dictDel _ _
    · rw [heq]
    · rw [heq]
  · intro hneg
    unfold Reactor.on_puback
    rw [hmq]
    cases ht : s.headPublishTicket with
    | none => exact ⟨rfl, rfl⟩
    | some t =>
      by_cases hpid : t.packet_id = pid
      · by_cases hqos : t.qos = 1
        · exact absurd ⟨ht, hpid, hqos⟩ (hneg t)
        · simp [hpid, hqos, Reactor.abort_protocol_violation, Reactor.abort,
            Reactor.terminateTo]
      · simp [hpid, Reactor.abort_protocol_violation, Reactor.abort,
          Reactor.terminateTo]

/-- Witness for C1: a connected reactor with one in-flight qos-1
publish (id 0); the accepted PUBACK empties the allocator, and the
PUBACK of an id not in flight (7) aborts with a protocol error. -/
theorem c1_puback_accept_or_protocol_error_witness :
    (c1State.on_puback 0).send_path_packet_ids = [] ∧
    (c1State.on_puback 0).state = ReactorState.started ∧
    (c1State.on_puback 7).state = ReactorState.error ∧
    (c1State.on_puback 7).error = some .protocol := by
  have ha := (c1_puback_accept_or_protocol_error c1State 0 rfl).1 c1Ticket
    rfl rfl rfl
  have hb := (c1_puback_accept_or_protocol_error c1State 7 rfl).2 (by
    intro t h
    obtain ⟨h1, h2, h3⟩ := h
    have h1' : some c1Ticket = some t := h1
    have ht := Option.some.inj h1'
    rw [← ht] at h2
    exact absurd h2 (by decide))
  refine ⟨?_, ?_, hb.1, hb.2⟩
  · rw [ha.1]; rfl
  · rw [ha.1]; rfl

/-- Claim C2 (status: confirmed).  Stated for every state with
MqttState = connected: when a PUBREC matching the head in-flight qos-2
publish is accepted, the publish record leaves the in-flight queue,
on_pubrec fires, and PUBREL(packet_id) is inserted at the index that
was the preflight length when the PUBREC was received — in front of
everything the on_pubrec callback appended (`cbAppends`) and behind the
whole earlier preflight queue, so PUBRELs of successive accepted
PUBRECs keep PUBREC arrival order. -/
theorem c2_pubrel_insert_position (s : Reactor) (pid : Nat)
    (cbAppends : List PacketRecord) (t : MqttPublishTicket)
    (hmq : s.mqtt_state = .connected)
    (ht : s.headPublishTicket = some t)
    (hpid : t.packet_id = pid) (hqos : t.qos = 2) :
    s.on_pubrec pid cbAppends =
      { s with
        inflight_queue := dictDel s.inflight_queue pid
        emits := s.emits ++ [.on_pubrec pid]
        preflight_queue := s.preflight_queue ++ [.pubrel pid] ++ cbAppends } ∧
    (s.on_pubrec pid cbAppends).preflight_queue.take s.preflight_queue.length
      = s.preflight_queue ∧
    (s.on_pubrec pid cbAppends).preflight_queue.drop s.preflight_queue.length
      = .pubrel pid :: cbAppends ∧
    dictGet (s.on_pubrec pid cbAppends).inflight_queue pid = none := by
  have heq : s.on_pubrec pid cbAppends =
      { s with
        inflight_queue := dictDel s.inflight_queue pid
        emits := s.emits ++ [.on_pubrec pid]
        preflight_queue := s.preflight_queue ++ [.pubrel pid] ++ cbAppends } := by
    simp [Reactor.on_pubrec, hmq, ht, hpid, hqos, listInsert_at_append]
  refine ⟨heq, ?_, ?_, ?_⟩
  · rw [heq]
    show (s.preflight_queue ++ [PacketRecord.pubrel pid] ++ cbAppends).take
      s.preflight_queue.length = s.preflight_queue
    rw [List.append_assoc, List.take_left]
  · rw [heq]
    show (s.preflight_queue ++ [PacketRecord.pubrel pid] ++ cbAppends).drop
      s.preflight_queue.length = PacketRecord.pubrel pid :: cbAppends
    rw [List.append_assoc, List.drop_left]
    rfl
  · rw [heq]
    exact dictGet_dictDel _ _

/-- Witness for C2: the connected reactor with one in-flight qos-2
publish accepts PUBREC(0); with one callback-appended publish the
PUBREL lands between the old preflight queue and the append. -/
theorem c2_pubrel_insert_position_witness :
    (c2State.on_pubrec 0 [.pingreq]).preflight_queue
      = [.puback 9, .pubrel 0, .pingreq] ∧
    (c2State.on_pubrec 0 [.pingreq]).inflight_queue = [] := by
  have h := c2_pubrel_insert_position c2State 0 [.pingreq] c2Ticket
    rfl rfl rfl rfl
  constructor
  · rw [h.1]; decide
  · rw [h.1]; decide

/-- Claim C8 (status: confirmed).  Stated for every state awaiting the
CONNACK (MqttState = connack, ReactorState starting or stopping, the
only values the source admits there): a CONNACK with return code
accepted and session_present = true while the client requested
clean_session = true aborts with a ProtocolReactorError
[MQTT-3.2.2-1]; otherwise MqttState becomes connected and starting
becomes started while stopping stays stopping.  The send performed by
the subsequent tx-buffer feed is assumed not to fail (a socket errno
there would abort independently of CONNACK processing). -/
theorem c8_connack_accepted (s : Reactor) (sp : Bool) (res : SendResult)
    (hmq : s.mqtt_state = .connack)
    (hst : s.state = .starting ∨ s.state = .stopping)
    (hres : res.isErr = false) :
    (sp = true → s.clean_session = true →
      (s.on_connack_pkt sp .accepted res).state = .error ∧
      (s.on_connack_pkt sp .accepted res).error = some .protocol) ∧
    (¬ (sp = true ∧ s.clean_session = true) →
      (s.on_connack_pkt sp .accepted res).mqtt_state = .connected ∧
      (s.state = .starting → (s.on_connack_pkt sp .accepted res).state = .started) ∧
      (s.state = .stopping →
        (s.on_connack_pkt sp .accepted res).state = .stopping)) := by
  constructor
  · intro hsp hcs
    unfold Reactor.on_connack_pkt
    rw [hmq]
    unfold Reactor.on_connack_accepted
    rw [hsp, hcs]
    exact ⟨rfl, rfl⟩
  · intro hneg
    have hcond : (sp && s.clean_session) = false := by
      cases hsp : sp with
      | false => rfl
      | true =>
        cases hcs : s.clean_session with
        | false => rfl
        | true => exact absurd ⟨hsp, hcs⟩ hneg
    unfold Reactor.on_connack_pkt
    rw [hmq]
    unfold Reactor.on_connack_accepted
    rw [hcond]
    rcases hst with hst | hst
    · rw [hst]
      have hp := feed_wbuf_preserves
        { s with
          state := ReactorState.started
          mqtt_state := MqttState.connected
          emits := s.emits ++ [Emit.on_connack] } res hres
      exact ⟨hp.2.1, fun _ => hp.1, fun hc => ReactorState.noConfusion hc⟩
    · rw [hst]
      have hp := feed_wbuf_preserves
        { s with
          mqtt_state := MqttState.connected
          emits := s.emits ++ [Emit.on_connack] } res hres
      exact ⟨hp.2.1, fun hc => ReactorState.noConfusion hc,
        fun _ => hp.1.trans hst⟩

/-- Witness for C8: the connack-awaiting reactor with
clean_session = true; session_present = true aborts with a protocol
error, session_present = false promotes starting to started with
MqttState connected. -/
theorem c8_connack_accepted_witness :
    (c8State.on_connack_pkt true .accepted .wouldBlock).state = .error ∧
    (c8State.on_connack_pkt true .accepted .wouldBlock).error = some .protocol ∧
    (c8State.on_connack_pkt false .accepted .wouldBlock).mqtt_state = .connected ∧
    (c8State.on_connack_pkt false .accepted .wouldBlock).state = .started := by
  have ha := (c8_connack_accepted c8State true .wouldBlock rfl (Or.inl rfl) rfl).1
    rfl rfl
  have hb := (c8_connack_accepted c8State false .wouldBlock rfl (Or.inl rfl) rfl).2
    (by intro hc; exact absurd hc.1 (by decide))
  exact ⟨ha.1, ha.2, hb.1, hb.2.1 rfl⟩

/-! ## Preservation of the keepalive-abort-deadline invariant -/

theorem countLaunched_zero (offs : List Nat) : countLaunched offs 0 = 0 := by
  cases offs with
  | nil => rfl
  | cons o rest => simp [countLaunched]

theorem inv_terminateTo (s : Reactor) (st : ReactorState)
    (e : Option ReactorError) : abortDeadlineInv (s.terminateTo st e) := by
  intro h
  unfold sockWantsAbortDeadline at h
  rcases h with h | h | h | h <;> simp [Reactor.terminateTo] at h

theorem inv_abort (s : Reactor) (e : ReactorError) :
    abortDeadlineInv (s.abort e) :=
  inv_terminateTo s .error (some e)

theorem inv_apv (s : Reactor) : abortDeadlineInv s.abort_protocol_violation :=
  inv_terminateTo s .error (some .protocol)

theorem inv_launch_packets (s : Reactor) (res : SendResult)
    (hd : s.keepalive_abort_deadline ≠ none) :
    abortDeadlineInv (s.launch_packets res) := by
  cases res with
  | ok n =>
    intro _
    simp only [Reactor.launch_packets, Reactor.flush]
    split_ifs
    all_goals
      rw [(foldl_launchRecord_preserves _ _).2.2.2]
    all_goals exact hd
  | wouldBlock =>
    intro _
    simp only [Reactor.launch_packets, Reactor.flush]
    split_ifs
    all_goals
      rw [(foldl_launchRecord_preserves _ _).2.2.2]
    all_goals exact hd
  | err e =>
    unfold abortDeadlineInv
    simp only [Reactor.launch_packets, Reactor.flush, Reactor.abort,
      Reactor.terminateTo]
    try dsimp only
    split_ifs <;>
      simp_all [countLaunched_zero, sockWantsAbortDeadline]

theorem inv_feed_wbuf (s : Reactor) (res : SendResult)
    (hinv : abortDeadlineInv s) : abortDeadlineInv (s.feed_wbuf res) := by
  unfold Reactor.feed_wbuf
  cases hs : s.sock_state with
  | connected => exact inv_launch_packets s res (hinv (Or.inr (Or.inl hs)))
  | deaf => exact inv_launch_packets s res (hinv (Or.inr (Or.inr (Or.inr hs))))
  | name_resolution => exact hinv
  | connecting => exact hinv
  | handshake => exact hinv
  | mute => exact hinv
  | stopped => exact hinv

theorem inv_set_connack (s : Reactor) (res : SendResult)
    (hd : s.keepalive_abort_deadline ≠ none) :
    abortDeadlineInv (s.set_connack res) := by
  unfold Reactor.set_connack Reactor.feed_wbuf
  exact inv_launch_packets _ res hd

theorem inv_set_handshake (s : Reactor) (hres : HandshakeResult)
    (res : SendResult) (hd : s.keepalive_abort_deadline ≠ none) :
    abortDeadlineInv (s.set_handshake hres res) := by
  unfold Reactor.set_handshake
  cases hres with
  | ok => exact inv_set_connack _ res hd
  | wantRead => intro _; exact hd
  | wantWrite => intro _; exact hd
  | err e => exact inv_abort _ _

theorem inv_on_connect (s : Reactor) (hres : HandshakeResult)
    (res : SendResult) : abortDeadlineInv (s.on_connect hres res) := by
  simp only [Reactor.on_connect]
  split_ifs
  · exact inv_set_handshake _ hres res (fun h => Option.noConfusion h)
  · exact inv_set_connack _ res (fun h => Option.noConfusion h)

theorem inv_write (s : Reactor) (so : Nat) (hres : HandshakeResult)
    (res : SendResult) (hinv : abortDeadlineInv s) :
    abortDeadlineInv (s.write so hres res) := by
  unfold Reactor.write
  cases hs : s.sock_state with
  | connecting =>
    split_ifs
    · exact inv_on_connect _ hres res
    · exact hinv
    · exact inv_abort _ _
  | handshake => exact inv_set_handshake _ hres res (hinv (Or.inl hs))
  | connected => exact inv_feed_wbuf _ res hinv
  | deaf => exact inv_feed_wbuf _ res hinv
  | name_resolution => exact hinv
  | mute => exact hinv
  | stopped => exact hinv

theorem inv_on_connack_pkt (s : Reactor) (sp : Bool) (rc : ConnackResult)
    (res : SendResult) (hinv : abortDeadlineInv s) :
    abortDeadlineInv (s.on_connack_pkt sp rc res) := by
  unfold Reactor.on_connack_pkt Reactor.on_connack_accepted
  repeat' split
  all_goals
    first
    | exact inv_abort _ _
    | exact inv_apv _
    | exact hinv
    | exact inv_feed_wbuf _ res hinv

theorem inv_on_puback (s : Reactor) (pid : Nat)
    (hinv : abortDeadlineInv s) : abortDeadlineInv (s.on_puback pid) := by
  unfold Reactor.on_puback
  repeat' split
  all_goals first | exact inv_apv _ | exact hinv

theorem inv_on_pubrec (s : Reactor) (pid : Nat) (apps : List PacketRecord)
    (hinv : abortDeadlineInv s) :
    abortDeadlineInv (s.on_pubrec pid apps) := by
  unfold Reactor.on_pubrec
  repeat' split
  all_goals first | exact inv_apv _ | exact hinv

theorem inv_on_pubcomp (s : Reactor) (pid : Nat)
    (hinv : abortDeadlineInv s) : abortDeadlineInv (s.on_pubcomp pid) := by
  unfold Reactor.on_pubcomp
  repeat' split
  all_goals first | exact inv_apv _ | exact hinv

theorem inv_on_suback (s : Reactor) (pid n : Nat)
    (hinv : abortDeadlineInv s) : abortDeadlineInv (s.on_suback pid n) := by
  unfold Reactor.on_suback
  repeat' split
  all_goals first | exact inv_apv _ | exact hinv

theorem inv_on_unsuback (s : Reactor) (pid : Nat)
    (hinv : abortDeadlineInv s) : abortDeadlineInv (s.on_unsuback pid) := by
  unfold Reactor.on_unsuback
  repeat' split
  all_goals first | exact inv_apv _ | exact hinv

theorem inv_on_publish_pkt (s : Reactor) (pid qos : Nat)
    (hinv : abortDeadlineInv s) :
    abortDeadlineInv (s.on_publish_pkt pid qos) := by
  unfold Reactor.on_publish_pkt
  repeat' split
  all_goals first | exact inv_apv _ | exact hinv

theorem inv_on_pingreq (s : Reactor) (hinv : abortDeadlineInv s) :
    abortDeadlineInv s.on_pingreq := by
  unfold Reactor.on_pingreq
  repeat' split
  all_goals first | exact inv_apv _ | exact hinv

theorem inv_on_pingresp (s : Reactor) (hinv : abortDeadlineInv s) :
    abortDeadlineInv s.on_pingresp := by
  unfold Reactor.on_pingresp
  repeat' split
  all_goals first | exact inv_apv _ | exact hinv

theorem inv_on_pubrel (s : Reactor) (pid : Nat)
    (hinv : abortDeadlineInv s) : abortDeadlineInv (s.on_pubrel pid) := by
  unfold Reactor.on_pubrel
  repeat' split
  all_goals first | exact inv_apv _ | exact hinv

theorem inv_recvReschedule (s : Reactor) :
    abortDeadlineInv s.recvReschedule :=
  fun _ h => Option.noConfusion h

theorem inv_on_recv_packet (s : Reactor) (p : InPacket) (res : SendResult)
    (apps : List PacketRecord) :
    abortDeadlineInv (s.on_recv_packet p res apps) := by
  unfold Reactor.on_recv_packet
  cases p
  all_goals
    first
    | exact inv_on_connack_pkt _ _ _ _ (inv_recvReschedule s)
    | exact inv_on_suback _ _ _ (inv_recvReschedule s)
    | exact inv_on_unsuback _ _ (inv_recvReschedule s)
    | exact inv_on_puback _ _ (inv_recvReschedule s)
    | exact inv_on_publish_pkt _ _ _ (inv_recvReschedule s)
    | exact inv_on_pingreq _ (inv_recvReschedule s)
    | exact inv_on_pingresp _ (inv_recvReschedule s)
    | exact inv_on_pubrel _ _ (inv_recvReschedule s)
    | exact inv_on_pubcomp _ _ (inv_recvReschedule s)
    | exact inv_on_pubrec _ _ _ (inv_recvReschedule s)

theorem inv_on_muted_remote (s : Reactor) (hinv : abortDeadlineInv s) :
    abortDeadlineInv s.on_muted_remote := by
  unfold Reactor.on_muted_remote
  repeat' split
  all_goals
    first
    | exact inv_abort _ _
    | exact inv_terminateTo _ _ _
    | exact hinv

theorem inv_read (s : Reactor) (r : RecvResult) (hres : HandshakeResult)
    (res : SendResult) (apps : List PacketRecord)
    (hinv : abortDeadlineInv s) :
    abortDeadlineInv (s.read r hres res apps) := by
  unfold Reactor.read
  cases hs : s.sock_state with
  | handshake => exact inv_set_handshake _ hres res (hinv (Or.inl hs))
  | connected =>
    cases r with
    | pkt p => exact inv_on_recv_packet _ p res apps
    | eof => exact inv_on_muted_remote _ hinv
    | wouldBlock => exact hinv
    | decodeFail => exact inv_abort _ _
    | err e => exact inv_abort _ _
  | mute =>
    cases r with
    | pkt p => exact inv_on_recv_packet _ p res apps
    | eof => exact inv_on_muted_remote _ hinv
    | wouldBlock => exact hinv
    | decodeFail => exact inv_abort _ _
    | err e => exact inv_abort _ _
  | name_resolution => exact hinv
  | connecting => exact hinv
  | deaf => exact hinv
  | stopped => exact hinv

theorem inv_startInternal (s : Reactor) :
    abortDeadlineInv s.startInternal := by
  intro h
  unfold sockWantsAbortDeadline at h
  rcases h with h | h | h | h <;> simp [Reactor.startInternal] at h

theorem inv_start (s : Reactor) (hinv : abortDeadlineInv s) :
    abortDeadlineInv s.start := by
  unfold Reactor.start
  split_ifs
  · exact inv_startInternal s
  · exact hinv

theorem inv_stop (s : Reactor) (hinv : abortDeadlineInv s) :
    abortDeadlineInv s.stop := by
  unfold Reactor.stop
  repeat' split
  all_goals
    first
    | exact inv_terminateTo _ _ _
    | exact hinv

theorem inv_terminate (s : Reactor) (hinv : abortDeadlineInv s) :
    abortDeadlineInv s.terminate := by
  unfold Reactor.terminate
  split_ifs
  · exact inv_terminateTo _ _ _
  · exact hinv

theorem inv_on_name_resolution (s : Reactor) (nr : NameRes)
    (hinv : abortDeadlineInv s) :
    abortDeadlineInv (s.on_name_resolution nr) := by
  unfold Reactor.on_name_resolution
  cases nr with
  | failed => exact inv_abort _ _
  | empty => exact inv_abort _ _
  | found co =>
    cases co with
    | einprogress =>
      intro h
      unfold sockWantsAbortDeadline at h
      rcases h with h | h | h | h <;> simp at h
    | err e => exact inv_abort _ _
    | immediate hres res => exact inv_on_connect _ hres res

theorem inv_keepalive_due_timeout (s : Reactor)
    (hinv : abortDeadlineInv s) :
    abortDeadlineInv s.keepalive_due_timeout := by
  exact hinv

theorem inv_keepalive_abort_timeout (s : Reactor) :
    abortDeadlineInv s.keepalive_abort_timeout :=
  inv_abort _ _

theorem inv_runEvent (s : Reactor) (e : Event) (s' : Reactor)
    (hinv : abortDeadlineInv s) (h : runEvent s e = some s') :
    abortDeadlineInv s' := by
  cases e with
  | evStart =>
    simp only [runEvent] at h
    have hs' := Option.some.inj h
    subst hs'
    exact inv_start s hinv
  | evStop =>
    simp only [runEvent] at h
    have hs' := Option.some.inj h
    subst hs'
    exact inv_stop s hinv
  | evTerminate =>
    simp only [runEvent] at h
    have hs' := Option.some.inj h
    subst hs'
    exact inv_terminate s hinv
  | evPublish topic payload qos retain size =>
    simp only [runEvent] at h
    by_cases hq : qos ≤ 2
    · rw [if_pos hq] at h
      unfold Reactor.publish at h
      cases hacq : pidAcquire s.send_path_packet_ids with
      | none => rw [hacq] at h; exact Option.noConfusion h
      | some pr =>
        rw [hacq] at h
        simp only [Option.map_some'] at h
        have hs' := Option.some.inj h
        subst hs'
        exact hinv
    · rw [if_neg hq] at h
      exact Option.noConfusion h
  | evSubscribe topics size =>
    simp only [runEvent] at h
    unfold Reactor.subscribe at h
    cases hacq : pidAcquire s.send_path_packet_ids with
    | none => rw [hacq] at h; exact Option.noConfusion h
    | some pr =>
      rw [hacq] at h
      simp only [Option.map_some'] at h
      have hs' := Option.some.inj h
      subst hs'
      exact hinv
  | evUnsubscribe topics size =>
    simp only [runEvent] at h
    unfold Reactor.unsubscribe at h
    cases hacq : pidAcquire s.send_path_packet_ids with
    | none => rw [hacq] at h; exact Option.noConfusion h
    | some pr =>
      rw [hacq] at h
      simp only [Option.map_some'] at h
      have hs' := Option.some.inj h
      subst hs'
      exact hinv
  | evNameResolved nr =>
    simp only [runEvent] at h
    split_ifs at h with hc
    have hs' := Option.some.inj h
    subst hs'
    exact inv_on_name_resolution s nr hinv
  | evWrite so hres res =>
    simp only [runEvent] at h
    have hs' := Option.some.inj h
    subst hs'
    exact inv_write s so hres res hinv
  | evRead r hres res =>
    simp only [runEvent] at h
    have hs' := Option.some.inj h
    subst hs'
    exact inv_read s r hres res [] hinv
  | evKeepaliveDue =>
    simp only [runEvent] at h
    split_ifs at h with hc
    have hs' := Option.some.inj h
    subst hs'
    exact inv_keepalive_due_timeout s hinv
  | evKeepaliveAbort =>
    simp only [runEvent] at h
    split_ifs at h with hc
    have hs' := Option.some.inj h
    subst hs'
    exact inv_keepalive_abort_timeout s

theorem inv_runEvents (evs : List Event) (s s' : Reactor)
    (hinv : abortDeadlineInv s) (h : runEvents s evs = some s') :
    abortDeadlineInv s' := by
  induction evs generalizing s with
  | nil =>
    cases h
    exact hinv
  | cons e rest ih =>
    unfold runEvents at h
    cases he : runEvent s e with
    | none => rw [he] at h; cases h
    | some s1 =>
      rw [he] at h
      exact ih s1 (inv_runEvent s e s1 hinv he) h

theorem reachable_abortDeadlineInv (s : Reactor) (h : Reachable s) :
    abortDeadlineInv s := by
  obtain ⟨cs, ka, hh, csz, evs, hrun⟩ := h
  refine inv_runEvents evs _ s ?_ hrun
  intro hsock
  unfold sockWantsAbortDeadline at hsock
  rcases hsock with h1 | h1 | h1 | h1 <;> simp [Reactor.initial] at h1

/-- Claim C6, amended (status: corrected).  Amended only in the
deadline duration, which the counterexample forces: the scheduled
duration is 1.5·K, not ⌊1.5·K⌋ (durations are in half-second units, so
1.5·K is the natural number 3·K).  The rest of the claim holds:
(1) in every reachable state with SocketState in handshake, connected,
mute or deaf, a keepalive-abort deadline is pending; (2) the deadline
bookkeeping run at the head of __on_recv_bytes for every inbound chunk
(recvReschedule, definitionally the first step of on_recv_packet)
cancels the old deadline and schedules a fresh one of 3·K half-seconds
from the moment the bytes arrive; (3) when the deadline expires the
reactor terminates into ReactorState.error with
KeepaliveTimeoutReactorError. -/
theorem c6_keepalive_abort_pending_and_rescheduled :
    (∀ s : Reactor, Reachable s → sockWantsAbortDeadline s →
      s.keepalive_abort_deadline ≠ none) ∧
    (∀ s : Reactor, s.recvReschedule.keepalive_abort_deadline
      = some (3 * s.keepalive_period)) ∧
    (∀ s : Reactor, s.keepalive_abort_timeout.state = .error ∧
      s.keepalive_abort_timeout.error = some .keepaliveTimeout) := by
  refine ⟨?_, ?_, ?_⟩
  · exact fun s hr => reachable_abortDeadlineInv s hr
  · intro s
    unfold Reactor.recvReschedule
    split_ifs <;> rfl
  · intro s
    exact ⟨rfl, rfl⟩

/-- Witness for C6: the concrete reachable connected state after the
c6Events run (keepalive period 1) has a pending abort deadline; an
inbound chunk reschedules it to 3 half-seconds; expiry yields the
KeepaliveTimeout error state. -/
theorem c6_keepalive_abort_pending_and_rescheduled_witness :
    c6wState.keepalive_abort_deadline ≠ none ∧
    c6wState.recvReschedule.keepalive_abort_deadline = some 3 ∧
    c6wState.keepalive_abort_timeout.state = .error ∧
    c6wState.keepalive_abort_timeout.error = some .keepaliveTimeout := by
  refine ⟨c6_keepalive_abort_pending_and_rescheduled.1 c6wState
      ⟨false, 1, false, 20, c6Events, by decide⟩ (Or.inr (Or.inl rfl)),
    ?_,
    (c6_keepalive_abort_pending_and_rescheduled.2.2 c6wState).1,
    (c6_keepalive_abort_pending_and_rescheduled.2.2 c6wState).2⟩
  have h := c6_keepalive_abort_pending_and_rescheduled.2.1 c6wState
  rw [h]
  rfl

end HakaMqtt
